import Mathlib

/-!
Verification of the session lifecycle and state-synchronization manager
(fiftyone/core/session.py) against its specification.

The embedding models, from the source:
  - the execution context enumeration (fiftyone.core.context);
  - the StateDescription fields touched by Session;
  - the decorated mutators (dataset/view setters, clear_dataset, clear_view,
    refresh, show) including the side-effect order imposed by the
    _update_state decorator, recorded as an explicit event trace;
  - close(), which is not decorated;
  - the module-level registries _server_services and _subscribed_sessions
    together with the acquisition performed in Session.__init__ and the
    release performed in Session.__del__;
  - launch_app / close_app and the module-level _session singleton.

External collaborators (the push client transport, dataset objects, the
browser, process handles) are abstracted: a push is an event, the dataset
catalog fod.list_datasets() is a parameter, datasets are identified by
Nat ids.
-/

namespace FiftyOneSession

/-- Execution contexts returned by fiftyone.core.context._get_context:
_NONE, _IPYTHON, _COLAB. -/
inductive Context
  | NONE
  | IPYTHON
  | COLAB
deriving DecidableEq, Repr

/-- A DatasetView, modelled by the id of its owning dataset
(the view._dataset back-reference). -/
structure View where
  datasetId : Nat
deriving DecidableEq, Repr

/-- The StateDescription fields read and written by Session
(fiftyone.core.state.StateDescription). Datasets are Nat ids; the
datasets catalog is a list of names. -/
structure StateDescription where
  datasets : List String
  dataset : Option Nat
  view : Option View
  selected : List String
  selected_objects : List String
  filters : List (String × String)
  close : Bool
deriving DecidableEq, Repr

/-- StateDescription() default: empty fields, as at Session construction. -/
def StateDescription.init : StateDescription :=
  { datasets := []
    dataset := none
    view := none
    selected := []
    selected_objects := []
    filters := []
    close := false }

/-- Observable side effects of a session method, in program order:
a field mutation applied to the StateDescription, a refresh of
state.datasets from fod.list_datasets(), a push of the state to the
remote process (self._update_state via the client), a display call
(rendering in the notebook output, with its resolved height), and
the logger warning emitted by show() outside notebooks. -/
inductive Event
  | mutate
  | catalogRefresh
  | push
  | display (height : Nat)
  | warn
deriving DecidableEq, Repr

/-- True exactly on display events. -/
def Event.isDisplay : Event → Bool
  | .display _ => true
  | _ => false

/-- True exactly on push events. -/
def Event.isPush : Event → Bool
  | .push => true
  | _ => false

/-- Per-session configuration fixed at construction: the resolved context,
the port, the remote / desktop flags, the auto flag and the configured
height (Session._context, _port, _remote, _desktop, _auto, _height). -/
structure SessionConfig where
  context : Context
  port : Nat
  remote : Bool
  desktop : Bool
  auto : Bool
  height : Nat
deriving DecidableEq, Repr

/-- The _update_state decorator: run the wrapped body, then set
state.datasets = fod.list_datasets() (the catalog parameter), then push
via self._update_state(). The catalog refresh and the push come after
everything the body did, including any _auto_show call the body made. -/
def updateStateWrap (catalog : List String)
    (body : StateDescription → StateDescription × List Event)
    (s : StateDescription) : StateDescription × List Event :=
  let r := body s
  ({ r.1 with datasets := catalog }, r.2 ++ [Event.catalogRefresh, Event.push])

/-- Height resolution in Session.show: a caller height other than 800 is
kept; otherwise the configured session height is used when it is not 800;
otherwise the caller height (800) stands. -/
def resolveHeight (callerHeight sessionHeight : Nat) : Nat :=
  if callerHeight ≠ 800 then callerHeight
  else if sessionHeight ≠ 800 then sessionHeight
  else callerHeight

/-- Body of Session.show (before the decorator): outside notebooks it
warns and returns; in a notebook it reloads the dataset document (an
external effect, not modelled), refreshes state.datasets, resolves the
height and calls display. -/
def showBody (cfg : SessionConfig) (catalog : List String) (callerHeight : Nat)
    (s : StateDescription) : StateDescription × List Event :=
  if cfg.context = Context.NONE then
    (s, [Event.warn])
  else
    ({ s with datasets := catalog },
      [Event.catalogRefresh, Event.display (resolveHeight callerHeight cfg.height)])

/-- Session.show as called (decorated with _update_state). -/
def showFn (cfg : SessionConfig) (catalog : List String) (callerHeight : Nat)
    (s : StateDescription) : StateDescription × List Event :=
  updateStateWrap catalog (showBody cfg catalog callerHeight) s

/-- Session._auto_show: call show() (with its default height 800) when the
context is a notebook and auto is set; otherwise do nothing. -/
def autoShow (cfg : SessionConfig) (catalog : List String)
    (s : StateDescription) : StateDescription × List Event :=
  if cfg.context ≠ Context.NONE ∧ cfg.auto = true then
    showFn cfg catalog 800 s
  else
    (s, [])

/-- Body of the dataset setter: reload the dataset (external), set
state.dataset, clear state.view, state.selected, state.selected_objects
and state.filters, then call _auto_show. -/
def setDatasetBody (cfg : SessionConfig) (catalog : List String) (d : Option Nat)
    (s : StateDescription) : StateDescription × List Event :=
  let s1 := { s with
    dataset := d
    view := none
    selected := []
    selected_objects := []
    filters := [] }
  let r := autoShow cfg catalog s1
  (r.1, Event.mutate :: r.2)

/-- Body of the view setter: set state.view; when the view is not None,
set state.dataset to the view's owning dataset (and reload it, external);
clear the selections and filters; then call _auto_show. -/
def setViewBody (cfg : SessionConfig) (catalog : List String) (v : Option View)
    (s : StateDescription) : StateDescription × List Event :=
  let s1 := { s with view := v }
  let s2 :=
    match v with
    | some vv => { s1 with dataset := some vv.datasetId }
    | none => s1
  let s3 := { s2 with selected := [], selected_objects := [], filters := [] }
  let r := autoShow cfg catalog s3
  (r.1, Event.mutate :: r.2)

/-- Body of Session.clear_dataset: sets state.dataset = None and nothing
else; it does not touch the view, the selections or the filters, and it
does not call _auto_show. -/
def clearDatasetBody (s : StateDescription) : StateDescription × List Event :=
  ({ s with dataset := none }, [Event.mutate])

/-- Body of Session.clear_view: sets state.view = None (leaving the
dataset, selections and filters alone) and calls _auto_show. -/
def clearViewBody (cfg : SessionConfig) (catalog : List String)
    (s : StateDescription) : StateDescription × List Event :=
  let s1 := { s with view := none }
  let r := autoShow cfg catalog s1
  (r.1, Event.mutate :: r.2)

/-- Body of Session.refresh: just _auto_show. -/
def refreshBody (cfg : SessionConfig) (catalog : List String)
    (s : StateDescription) : StateDescription × List Event :=
  autoShow cfg catalog s

/-- The public mutators that carry the _update_state decorator. -/
inductive SessionOp
  | setDataset (d : Option Nat)
  | setView (v : Option View)
  | clearDataset
  | clearView
  | refresh
  | showOp (height : Nat)
deriving DecidableEq, Repr

/-- Run one decorated mutator: its body followed by the decorator's
catalog refresh and push. -/
def runOp (cfg : SessionConfig) (catalog : List String) (op : SessionOp)
    (s : StateDescription) : StateDescription × List Event :=
  match op with
  | .setDataset d => updateStateWrap catalog (setDatasetBody cfg catalog d) s
  | .setView v => updateStateWrap catalog (setViewBody cfg catalog v) s
  | .clearDataset => updateStateWrap catalog clearDatasetBody s
  | .clearView => updateStateWrap catalog (clearViewBody cfg catalog) s
  | .refresh => updateStateWrap catalog (refreshBody cfg catalog) s
  | .showOp h => updateStateWrap catalog (showBody cfg catalog h) s

/-- Apply a sequence of decorated mutators, keeping only the state. -/
def applyOps (cfg : SessionConfig) (catalog : List String)
    (ops : List SessionOp) (s : StateDescription) : StateDescription :=
  ops.foldl (fun st op => (runOp cfg catalog op st).1) s

/-- Session.close: a no-op for remote sessions; otherwise it sets
state.close = True and pushes. It is not decorated with _update_state,
so no catalog refresh occurs. -/
def closeFn (cfg : SessionConfig) (s : StateDescription) :
    StateDescription × List Event :=
  if cfg.remote = true then (s, [])
  else ({ s with close := true }, [Event.mutate, Event.push])

/-- The module-level process registries: _server_services (modelled by the
set of ports holding an entry) and _subscribed_sessions (port to set of
subscribed session ids). -/
structure Registry where
  services : Finset Nat
  subscribers : Nat → Finset Nat

/-- The registries at import time: no servers, no subscribers. -/
def Registry.empty : Registry :=
  { services := ∅, subscribers := fun _ => ∅ }

/-- Acquisition as performed by Session.__init__ (lines 246-253): when the
port has no _server_services entry, create one and start the server (the
returned Bool records whether a process was started); then add the session
to _subscribed_sessions[port]. -/
def Registry.acquire (r : Registry) (port sid : Nat) : Registry × Bool :=
  if port ∈ r.services then
    ({ services := r.services
       subscribers := fun p =>
         if p = port then insert sid (r.subscribers p) else r.subscribers p },
      false)
  else
    ({ services := insert port r.services
       subscribers := fun p =>
         if p = port then insert sid (r.subscribers p) else r.subscribers p },
      true)

/-- Release as performed by Session.__del__ (lines 314-321): discard the
session from _subscribed_sessions[port]; if that set is now empty and the
port has a _server_services entry, pop the entry and stop the service
(the returned Bool records whether a process was stopped). -/
def Registry.release (r : Registry) (port sid : Nat) : Registry × Bool :=
  if ((r.subscribers port).erase sid).card = 0 ∧ port ∈ r.services then
    ({ services := r.services.erase port
       subscribers := fun p =>
         if p = port then (r.subscribers port).erase sid else r.subscribers p },
      true)
  else
    ({ services := r.services
       subscribers := fun p =>
         if p = port then (r.subscribers port).erase sid else r.subscribers p },
      false)

/-- Acquire a port once per session id in the list, counting how many
server processes were started. -/
def acquireList : Registry → Nat → List Nat → Registry × Nat
  | r, _, [] => (r, 0)
  | r, port, sid :: rest =>
    let res := Registry.acquire r port sid
    let tail := acquireList res.1 port rest
    (tail.1, (if res.2 then 1 else 0) + tail.2)

/-- Release a port once per session id in the list, counting how many
server processes were stopped. -/
def releaseList : Registry → Nat → List Nat → Registry × Nat
  | r, _, [] => (r, 0)
  | r, port, sid :: rest =>
    let res := Registry.release r port sid
    let tail := releaseList res.1 port rest
    (tail.1, (if res.2 then 1 else 0) + tail.2)

/-- Errors raised by Session.__init__. -/
inductive InitError
  | remoteNotebook
  | desktopNotebook
  | desktopPackageMissing
deriving DecidableEq, Repr

/-- Arguments of Session.__init__ (dataset/view as optional ids, the
desktop argument kept optional as in the source). -/
structure InitParams where
  dataset : Option Nat
  view : Option View
  port : Nat
  remote : Bool
  desktop : Option Bool
  auto : Bool
  height : Nat
deriving DecidableEq, Repr

/-- Ambient inputs read by Session.__init__: the resolved context,
fo.config.desktop_app, whether the fiftyone.desktop package imports,
focn.DEV_INSTALL, and the dataset catalog. -/
structure Env where
  context : Context
  desktopAppConfig : Bool
  desktopInstalled : Bool
  devInstall : Bool
  catalog : List String
deriving DecidableEq, Repr

/-- A constructed session: its configuration and its StateDescription. -/
structure SessionRec where
  cfg : SessionConfig
  state : StateDescription
deriving DecidableEq, Repr

/-- Session.__init__, in source order: acquire the server service and
subscribe (lines 246-254); run the view or dataset setter when one was
given (256-259); resolve the desktop flag (261-267); raise for
remote-in-notebook (271-272); return early when remote (274-275); in a
headless context either require the desktop package (or DEV_INSTALL) and
start the desktop app, or open the browser (277-290); otherwise raise for
desktop-in-notebook (291-295). The registry effects precede every raise. -/
def initSession (r : Registry) (env : Env) (p : InitParams) (sid : Nat) :
    Registry × Except InitError SessionRec :=
  let r1 := (Registry.acquire r p.port sid).1
  let cfg0 : SessionConfig :=
    { context := env.context
      port := p.port
      remote := p.remote
      desktop := false
      auto := p.auto
      height := p.height }
  let st0 :=
    match p.view with
    | some v => (runOp cfg0 env.catalog (SessionOp.setView (some v)) StateDescription.init).1
    | none =>
      match p.dataset with
      | some d => (runOp cfg0 env.catalog (SessionOp.setDataset (some d)) StateDescription.init).1
      | none => StateDescription.init
  let desktop :=
    match p.desktop with
    | some b => b
    | none => if env.context = Context.NONE then env.desktopAppConfig else false
  let cfg : SessionConfig := { cfg0 with desktop := desktop }
  if p.remote = true ∧ env.context ≠ Context.NONE then
    (r1, Except.error InitError.remoteNotebook)
  else if p.remote = true then
    (r1, Except.ok { cfg := cfg, state := st0 })
  else if env.context = Context.NONE then
    if desktop = true then
      if env.desktopInstalled = false ∧ env.devInstall = false then
        (r1, Except.error InitError.desktopPackageMissing)
      else
        (r1, Except.ok { cfg := cfg, state := st0 })
    else
      (r1, Except.ok { cfg := cfg, state := st0 })
  else if desktop = true then
    (r1, Except.error InitError.desktopNotebook)
  else
    (r1, Except.ok { cfg := cfg, state := st0 })

/-- The module-level globals touched by launch_app / close_app: the
registries and the _session singleton, recorded as (session id, port). -/
structure Globals where
  registry : Registry
  activeSession : Option (Nat × Nat)

/-- close_app(): when a _session exists, call its close() (which only
pushes the close flag and does not touch the registries) and set
_session = None. Dropping the module reference does not run
Session.__del__: the _subscribed_sessions entry for the port still holds
a strong reference to the session object (added in __init__ at line 253
and removed only inside __del__ itself at line 315), so no release
happens and the registries are left untouched. -/
def closeApp (g : Globals) : Globals :=
  match g.activeSession with
  | none => g
  | some _ =>
    { registry := g.registry
      activeSession := none }

/-- launch_app(port): always close_app() first, then construct the new
session (which acquires the port and subscribes) and store it as the
module singleton. -/
def launchApp (g : Globals) (port newSid : Nat) : Globals :=
  let g1 := closeApp g
  { registry := (Registry.acquire g1.registry port newSid).1
    activeSession := some (newSid, port) }

/-- A notebook-context session with auto enabled and the default height,
used for concrete instantiations. -/
def notebookAutoCfg : SessionConfig :=
  { context := Context.IPYTHON
    port := 5151
    remote := false
    desktop := false
    auto := true
    height := 800 }

/-- A headless (non-notebook) session, used for concrete instantiations. -/
def headlessCfg : SessionConfig :=
  { context := Context.NONE
    port := 5151
    remote := false
    desktop := false
    auto := true
    height := 800 }

/-- A state with a view, its owning dataset and a selected sample, used to
exercise the clear operations. -/
def selectedState : StateDescription :=
  { StateDescription.init with
      dataset := some 1
      view := some { datasetId := 1 }
      selected := ["a"] }

/-- A notebook environment for concrete construction scenarios. -/
def notebookEnv : Env :=
  { context := Context.IPYTHON
    desktopAppConfig := false
    desktopInstalled := false
    devInstall := false
    catalog := [] }

/-- Constructor arguments for a remote session on port 5151. -/
def remoteParams : InitParams :=
  { dataset := none
    view := none
    port := 5151
    remote := true
    desktop := none
    auto := true
    height := 800 }

/-- Module globals with one launched session, id 0, subscribed on
port 7000, for the concrete relaunch scenario. -/
def launchedGlobals : Globals :=
  { registry :=
      { services := {7000}
        subscribers := fun p => if p = 7000 then {0} else ∅ }
    activeSession := some (0, 7000) }

/-- The event trace contributed by Session._auto_show: empty outside
notebooks or when auto is off; otherwise the trace of the inner decorated
show() call with its default height argument 800. -/
def autoShowEvents (cfg : SessionConfig) : List Event :=
  if cfg.context ≠ Context.NONE ∧ cfg.auto = true then
    [Event.catalogRefresh, Event.display (resolveHeight 800 cfg.height),
      Event.catalogRefresh, Event.push]
  else
    []

lemma autoShow_fst (cfg : SessionConfig) (catalog : List String)
    (s : StateDescription) :
    (autoShow cfg catalog s).1 =
      if cfg.context ≠ Context.NONE ∧ cfg.auto = true then
        { s with datasets := catalog }
      else s := by
  by_cases hc : cfg.context ≠ Context.NONE ∧ cfg.auto = true
  · have hne : ¬ cfg.context = Context.NONE := hc.1
    simp [autoShow, hc, showFn, updateStateWrap, showBody, hne]
  · simp [autoShow, hc]

lemma autoShow_snd (cfg : SessionConfig) (catalog : List String)
    (s : StateDescription) :
    (autoShow cfg catalog s).2 = autoShowEvents cfg := by
  by_cases hc : cfg.context ≠ Context.NONE ∧ cfg.auto = true
  · have hne : ¬ cfg.context = Context.NONE := hc.1
    simp [autoShow, hc, showFn, updateStateWrap, showBody, hne, autoShowEvents]
  · simp [autoShow, hc, autoShowEvents]

lemma runOp_setDataset_eq (cfg : SessionConfig) (catalog : List String)
    (d : Option Nat) (s : StateDescription) :
    runOp cfg catalog (SessionOp.setDataset d) s =
      ({ s with datasets := catalog, dataset := d, view := none, selected := [], selected_objects := [], filters := [] },
        Event.mutate :: autoShowEvents cfg ++ [Event.catalogRefresh, Event.push]) := by
  have h1 := autoShow_fst cfg catalog
  have h2 := autoShow_snd cfg catalog
  simp only [runOp, updateStateWrap, setDatasetBody, h1, h2, Prod.mk.injEq]
  refine ⟨?_, trivial⟩
  split <;> rfl

lemma runOp_setView_some_eq (cfg : SessionConfig) (catalog : List String)
    (v : View) (s : StateDescription) :
    runOp cfg catalog (SessionOp.setView (some v)) s =
      ({ s with datasets := catalog, dataset := some v.datasetId, view := some v, selected := [], selected_objects := [], filters := [] },
        Event.mutate :: autoShowEvents cfg ++ [Event.catalogRefresh, Event.push]) := by
  have h1 := autoShow_fst cfg catalog
  have h2 := autoShow_snd cfg catalog
  simp only [runOp, updateStateWrap, setViewBody, h1, h2, Prod.mk.injEq]
  refine ⟨?_, trivial⟩
  split <;> rfl

lemma runOp_setView_none_eq (cfg : SessionConfig) (catalog : List String)
    (s : StateDescription) :
    runOp cfg catalog (SessionOp.setView none) s =
      ({ s with datasets := catalog, view := none, selected := [], selected_objects := [], filters := [] },
        Event.mutate :: autoShowEvents cfg ++ [Event.catalogRefresh, Event.push]) := by
  have h1 := autoShow_fst cfg catalog
  have h2 := autoShow_snd cfg catalog
  simp only [runOp, updateStateWrap, setViewBody, h1, h2, Prod.mk.injEq]
  refine ⟨?_, trivial⟩
  split <;> rfl

lemma runOp_clearDataset_eq (cfg : SessionConfig) (catalog : List String)
    (s : StateDescription) :
    runOp cfg catalog SessionOp.clearDataset s =
      ({ s with datasets := catalog, dataset := none },
        [Event.mutate, Event.catalogRefresh, Event.push]) := by
  simp [runOp, updateStateWrap, clearDatasetBody]

lemma runOp_clearView_eq (cfg : SessionConfig) (catalog : List String)
    (s : StateDescription) :
    runOp cfg catalog SessionOp.clearView s =
      ({ s with datasets := catalog, view := none },
        Event.mutate :: autoShowEvents cfg ++ [Event.catalogRefresh, Event.push]) := by
  have h1 := autoShow_fst cfg catalog
  have h2 := autoShow_snd cfg catalog
  simp only [runOp, updateStateWrap, clearViewBody, h1, h2, Prod.mk.injEq]
  refine ⟨?_, trivial⟩
  split <;> rfl

lemma runOp_refresh_eq (cfg : SessionConfig) (catalog : List String)
    (s : StateDescription) :
    runOp cfg catalog SessionOp.refresh s =
      ({ s with datasets := catalog },
        autoShowEvents cfg ++ [Event.catalogRefresh, Event.push]) := by
  have h1 := autoShow_fst cfg catalog
  have h2 := autoShow_snd cfg catalog
  simp only [runOp, updateStateWrap, refreshBody, h1, h2, Prod.mk.injEq]
  refine ⟨?_, trivial⟩
  split <;> rfl

lemma runOp_show_headless_eq (cfg : SessionConfig) (catalog : List String)
    (h : Nat) (s : StateDescription) (hctx : cfg.context = Context.NONE) :
    runOp cfg catalog (SessionOp.showOp h) s =
      ({ s with datasets := catalog },
        [Event.warn, Event.catalogRefresh, Event.push]) := by
  simp [runOp, updateStateWrap, showBody, hctx]

lemma runOp_show_notebook_eq (cfg : SessionConfig) (catalog : List String)
    (h : Nat) (s : StateDescription) (hctx : cfg.context ≠ Context.NONE) :
    runOp cfg catalog (SessionOp.showOp h) s =
      ({ s with datasets := catalog },
        [Event.catalogRefresh, Event.display (resolveHeight h cfg.height),
          Event.catalogRefresh, Event.push]) := by
  simp [runOp, updateStateWrap, showBody, hctx]

lemma Registry.acquire_subscribers (r : Registry) (port sid q : Nat) :
    ((Registry.acquire r port sid).1).subscribers q =
      if q = port then insert sid (r.subscribers q) else r.subscribers q := by
  unfold Registry.acquire
  split <;> rfl

lemma Registry.acquire_services (r : Registry) (port sid : Nat) :
    ((Registry.acquire r port sid).1).services =
      if port ∈ r.services then r.services else insert port r.services := by
  unfold Registry.acquire
  split <;> simp_all

lemma Registry.acquire_started (r : Registry) (port sid : Nat) :
    (Registry.acquire r port sid).2 = (if port ∈ r.services then false else true) := by
  unfold Registry.acquire
  split <;> simp_all

lemma Registry.release_subscribers (r : Registry) (port sid q : Nat) :
    ((Registry.release r port sid).1).subscribers q =
      if q = port then (r.subscribers port).erase sid else r.subscribers q := by
  unfold Registry.release
  split <;> rfl

lemma Registry.release_services (r : Registry) (port sid : Nat) :
    ((Registry.release r port sid).1).services =
      if (r.subscribers port).erase sid = ∅ ∧ port ∈ r.services then
        r.services.erase port
      else r.services := by
  unfold Registry.release
  simp only [Finset.card_eq_zero]
  split <;> rfl

lemma Registry.release_stopped (r : Registry) (port sid : Nat) :
    (Registry.release r port sid).2 = true ↔
      (r.subscribers port).erase sid = ∅ ∧ port ∈ r.services := by
  unfold Registry.release
  simp only [Finset.card_eq_zero]
  split <;> simp_all

/-- C1: after any sequence of setDataset/setView calls ending in such a
call, the selections and filters are empty and a non-None view forces the
dataset to be the view's owner; a final setDataset leaves view = None with
the given dataset, and a final setView with a non-None view leaves that
view with its owning dataset. -/
theorem setter_invalidates_selection (cfg : SessionConfig)
    (catalog : List String) (ops : List SessionOp) (op : SessionOp)
    (s : StateDescription)
    (hop : (∃ d, op = SessionOp.setDataset d) ∨ ∃ v, op = SessionOp.setView v) :
    (applyOps cfg catalog (ops ++ [op]) s).selected = [] ∧
    (applyOps cfg catalog (ops ++ [op]) s).selected_objects = [] ∧
    (applyOps cfg catalog (ops ++ [op]) s).filters = [] ∧
    (∀ v, (applyOps cfg catalog (ops ++ [op]) s).view = some v →
      (applyOps cfg catalog (ops ++ [op]) s).dataset = some v.datasetId) ∧
    (∀ d, op = SessionOp.setDataset d →
      (applyOps cfg catalog (ops ++ [op]) s).view = none ∧
      (applyOps cfg catalog (ops ++ [op]) s).dataset = d) ∧
    (∀ v, op = SessionOp.setView (some v) →
      (applyOps cfg catalog (ops ++ [op]) s).view = some v ∧
      (applyOps cfg catalog (ops ++ [op]) s).dataset = some v.datasetId) := by
  have hfold : applyOps cfg catalog (ops ++ [op]) s
      = (runOp cfg catalog op (applyOps cfg catalog ops s)).1 := by
    simp [applyOps, List.foldl_append]
  rcases hop with ⟨d, rfl⟩ | ⟨v, rfl⟩
  · rw [hfold, runOp_setDataset_eq]
    simp
  · cases v with
    | none =>
      rw [hfold, runOp_setView_none_eq]
      simp
    | some vv =>
      rw [hfold, runOp_setView_some_eq]
      simp

/-- Witness for C1 at a concrete input: a single setDataset call. -/
theorem setter_invalidates_selection_witness :
    ((∃ d, SessionOp.setDataset (some 1) = SessionOp.setDataset d) ∨
      ∃ v, SessionOp.setDataset (some 1) = SessionOp.setView v) ∧
    ((applyOps notebookAutoCfg [] ([] ++ [SessionOp.setDataset (some 1)])
        StateDescription.init).selected = [] ∧
      (applyOps notebookAutoCfg [] ([] ++ [SessionOp.setDataset (some 1)])
        StateDescription.init).selected_objects = [] ∧
      (applyOps notebookAutoCfg [] ([] ++ [SessionOp.setDataset (some 1)])
        StateDescription.init).filters = [] ∧
      (∀ v, (applyOps notebookAutoCfg [] ([] ++ [SessionOp.setDataset (some 1)])
          StateDescription.init).view = some v →
        (applyOps notebookAutoCfg [] ([] ++ [SessionOp.setDataset (some 1)])
          StateDescription.init).dataset = some v.datasetId) ∧
      (∀ d, SessionOp.setDataset (some 1) = SessionOp.setDataset d →
        (applyOps notebookAutoCfg [] ([] ++ [SessionOp.setDataset (some 1)])
          StateDescription.init).view = none ∧
        (applyOps notebookAutoCfg [] ([] ++ [SessionOp.setDataset (some 1)])
          StateDescription.init).dataset = d) ∧
      (∀ v, SessionOp.setDataset (some 1) = SessionOp.setView (some v) →
        (applyOps notebookAutoCfg [] ([] ++ [SessionOp.setDataset (some 1)])
          StateDescription.init).view = some v ∧
        (applyOps notebookAutoCfg [] ([] ++ [SessionOp.setDataset (some 1)])
          StateDescription.init).dataset = some v.datasetId)) :=
  ⟨Or.inl ⟨some 1, rfl⟩,
    setter_invalidates_selection notebookAutoCfg [] [] (SessionOp.setDataset (some 1))
      StateDescription.init (Or.inl ⟨some 1, rfl⟩)⟩

/-- C2 counterexample: in a notebook session with auto enabled, the trace
of a setDataset mutation contains a display event strictly before the
first push event, so the auto-show rendering is not preceded by any push. -/
theorem mutation_order_counterexample :
    ((runOp notebookAutoCfg [] (SessionOp.setDataset (some 0))
        StateDescription.init).2.findIdx Event.isDisplay <
      (runOp notebookAutoCfg [] (SessionOp.setDataset (some 0))
        StateDescription.init).2.findIdx Event.isPush) ∧
    (runOp notebookAutoCfg [] (SessionOp.setDataset (some 0))
        StateDescription.init).2.findIdx Event.isDisplay <
      (runOp notebookAutoCfg [] (SessionOp.setDataset (some 0))
        StateDescription.init).2.length := by
  decide

/-- C2 amended: a mutation's trace is the field mutation, then (in a
notebook with auto) the whole auto-show — which itself refreshes the
catalog, displays, refreshes again and pushes — and finally the
decorator's catalog refresh and push; refresh() is the same without the
field mutation. When the auto-show runs, its display event precedes every
push event of the trace (the push follows the display, not the reverse). -/
theorem mutation_event_order (cfg : SessionConfig) (catalog : List String)
    (d : Option Nat) (v : Option View) (s : StateDescription) :
    (runOp cfg catalog (SessionOp.setDataset d) s).2
        = Event.mutate :: autoShowEvents cfg ++ [Event.catalogRefresh, Event.push] ∧
    (runOp cfg catalog (SessionOp.setView v) s).2
        = Event.mutate :: autoShowEvents cfg ++ [Event.catalogRefresh, Event.push] ∧
    (runOp cfg catalog SessionOp.refresh s).2
        = autoShowEvents cfg ++ [Event.catalogRefresh, Event.push] ∧
    (cfg.context ≠ Context.NONE ∧ cfg.auto = true →
      (runOp cfg catalog (SessionOp.setDataset d) s).2.findIdx Event.isDisplay <
        (runOp cfg catalog (SessionOp.setDataset d) s).2.findIdx Event.isPush) := by
  refine ⟨?_, ?_, ?_, ?_⟩
  · rw [runOp_setDataset_eq]
  · cases v with
    | none => rw [runOp_setView_none_eq]
    | some vv => rw [runOp_setView_some_eq]
  · rw [runOp_refresh_eq]
  · intro hc
    rw [runOp_setDataset_eq]
    simp [autoShowEvents, hc, List.findIdx, List.findIdx.go, Event.isDisplay, Event.isPush]

/-- Witness for C2's amended statement at a concrete notebook input. -/
theorem mutation_event_order_witness :
    (notebookAutoCfg.context ≠ Context.NONE ∧ notebookAutoCfg.auto = true) ∧
    ((runOp notebookAutoCfg [] (SessionOp.setDataset (some 0))
        StateDescription.init).2
      = Event.mutate :: autoShowEvents notebookAutoCfg
          ++ [Event.catalogRefresh, Event.push] ∧
     (runOp notebookAutoCfg [] (SessionOp.setView none)
        StateDescription.init).2
      = Event.mutate :: autoShowEvents notebookAutoCfg
          ++ [Event.catalogRefresh, Event.push] ∧
     (runOp notebookAutoCfg [] SessionOp.refresh StateDescription.init).2
      = autoShowEvents notebookAutoCfg ++ [Event.catalogRefresh, Event.push] ∧
     (notebookAutoCfg.context ≠ Context.NONE ∧ notebookAutoCfg.auto = true →
       (runOp notebookAutoCfg [] (SessionOp.setDataset (some 0))
          StateDescription.init).2.findIdx Event.isDisplay <
         (runOp notebookAutoCfg [] (SessionOp.setDataset (some 0))
            StateDescription.init).2.findIdx Event.isPush)) :=
  ⟨by decide,
    mutation_event_order notebookAutoCfg [] (some 0) none StateDescription.init⟩

/-- C4 counterexample: show() in a NONE-context session warns and returns,
but the _update_state decorator still pushes the state (and refreshes the
catalog), so a state push does occur. -/
theorem show_headless_counterexample :
    Event.warn ∈ (runOp headlessCfg [] (SessionOp.showOp 800)
        StateDescription.init).2 ∧
    Event.push ∈ (runOp headlessCfg [] (SessionOp.showOp 800)
        StateDescription.init).2 := by
  decide

/-- C4 amended: show(height) in a NONE context returns normally (the
embedding is total), its body emits only the warning and changes nothing,
but the decorator then refreshes the datasets catalog and pushes the
state; no display happens. -/
theorem show_headless_behavior (cfg : SessionConfig) (catalog : List String)
    (h : Nat) (s : StateDescription) (hctx : cfg.context = Context.NONE) :
    runOp cfg catalog (SessionOp.showOp h) s =
      ({ s with datasets := catalog },
        [Event.warn, Event.catalogRefresh, Event.push]) := by
  exact runOp_show_headless_eq cfg catalog h s hctx

/-- Witness for C4's amended statement at a concrete headless input. -/
theorem show_headless_behavior_witness :
    headlessCfg.context = Context.NONE ∧
    runOp headlessCfg [] (SessionOp.showOp 800) StateDescription.init =
      ({ StateDescription.init with datasets := [] },
        [Event.warn, Event.catalogRefresh, Event.push]) :=
  ⟨rfl, show_headless_behavior headlessCfg [] 800 StateDescription.init rfl⟩

/-- C7 counterexample: in a notebook session with auto enabled, after
clear_dataset() the selection is still nonempty, the view is still set
while the dataset is None (breaking the dataset/view mutual exclusion of
section 3), and no display (auto-show) happened. -/
theorem clear_ops_counterexample :
    (runOp notebookAutoCfg [] SessionOp.clearDataset selectedState).1.selected
        = ["a"] ∧
    (runOp notebookAutoCfg [] SessionOp.clearDataset selectedState).1.view
        = some { datasetId := 1 } ∧
    (runOp notebookAutoCfg [] SessionOp.clearDataset selectedState).1.dataset
        = none ∧
    (runOp notebookAutoCfg [] SessionOp.clearDataset selectedState).2.countP
        Event.isDisplay = 0 := by
  decide

/-- C7 amended: clear_dataset() only sets state.dataset = None — the view,
selections and filters are untouched and no auto-show happens — followed
by the decorator's catalog refresh and push; clear_view() only sets
state.view = None — selections, filters and dataset are untouched — then
auto-shows and the decorator refreshes the catalog and pushes. -/
theorem clear_ops_behavior (cfg : SessionConfig) (catalog : List String)
    (s : StateDescription) :
    runOp cfg catalog SessionOp.clearDataset s =
      ({ s with datasets := catalog, dataset := none },
        [Event.mutate, Event.catalogRefresh, Event.push]) ∧
    runOp cfg catalog SessionOp.clearView s =
      ({ s with datasets := catalog, view := none },
        Event.mutate :: autoShowEvents cfg ++ [Event.catalogRefresh, Event.push]) :=
  ⟨runOp_clearDataset_eq cfg catalog s, runOp_clearView_eq cfg catalog s⟩

/-- C8: close() on a remote session is a no-op (state unchanged, no
events); otherwise it sets only the close flag and pushes, with no catalog
refresh in its trace — while every decorated mutator's trace does contain
a catalog refresh. -/
theorem close_behavior (cfg : SessionConfig) (catalog : List String)
    (s : StateDescription) :
    (cfg.remote = true → closeFn cfg s = (s, [])) ∧
    (cfg.remote = false →
      (closeFn cfg s).1 = { s with close := true } ∧
      (closeFn cfg s).2 = [Event.mutate, Event.push] ∧
      Event.catalogRefresh ∉ (closeFn cfg s).2) ∧
    (∀ op, Event.catalogRefresh ∈ (runOp cfg catalog op s).2) := by
  refine ⟨?_, ?_, ?_⟩
  · intro hrem
    simp [closeFn, hrem]
  · intro hrem
    simp [closeFn, hrem]
  · intro op
    cases op <;> simp [runOp, updateStateWrap]

/-- Witness for C8 at a concrete non-remote input. -/
theorem close_behavior_witness :
    notebookAutoCfg.remote = false ∧
    ((closeFn notebookAutoCfg StateDescription.init).1
        = { StateDescription.init with close := true } ∧
      (closeFn notebookAutoCfg StateDescription.init).2
        = [Event.mutate, Event.push] ∧
      Event.catalogRefresh ∉ (closeFn notebookAutoCfg StateDescription.init).2) ∧
    Event.catalogRefresh ∈
      (runOp notebookAutoCfg [] SessionOp.refresh StateDescription.init).2 :=
  ⟨rfl,
    (close_behavior notebookAutoCfg [] StateDescription.init).2.1 rfl,
    (close_behavior notebookAutoCfg [] StateDescription.init).2.2 SessionOp.refresh⟩

/-- C9: in a notebook context, show(height) displays with the resolved
height: a caller height other than 800 is used as given; a caller height
of 800 defers to the session's configured height when that differs from
800, and otherwise 800 is used. -/
theorem show_height_precedence (cfg : SessionConfig) (catalog : List String)
    (h : Nat) (s : StateDescription) (hctx : cfg.context ≠ Context.NONE) :
    (runOp cfg catalog (SessionOp.showOp h) s).2
        = [Event.catalogRefresh, Event.display (resolveHeight h cfg.height),
            Event.catalogRefresh, Event.push] ∧
    (h ≠ 800 → resolveHeight h cfg.height = h) ∧
    (h = 800 → cfg.height ≠ 800 → resolveHeight h cfg.height = cfg.height) ∧
    (h = 800 → cfg.height = 800 → resolveHeight h cfg.height = 800) := by
  refine ⟨?_, ?_, ?_, ?_⟩
  · rw [runOp_show_notebook_eq cfg catalog h s hctx]
  · intro hne
    simp [resolveHeight, hne]
  · intro he hs
    simp [resolveHeight, he, hs]
  · intro he hs
    simp [resolveHeight, he, hs]

/-- Witness for C9 at a concrete notebook input with a configured height
of 640 and the default caller height. -/
theorem show_height_precedence_witness :
    ({ notebookAutoCfg with height := 640 } : SessionConfig).context
        ≠ Context.NONE ∧
    ((runOp { notebookAutoCfg with height := 640 } [] (SessionOp.showOp 800)
        StateDescription.init).2
      = [Event.catalogRefresh,
          Event.display (resolveHeight 800
            ({ notebookAutoCfg with height := 640 } : SessionConfig).height),
          Event.catalogRefresh, Event.push] ∧
     (800 ≠ 800 → resolveHeight 800
        ({ notebookAutoCfg with height := 640 } : SessionConfig).height = 800) ∧
     (800 = 800 → ({ notebookAutoCfg with height := 640 } : SessionConfig).height ≠ 800 →
        resolveHeight 800 ({ notebookAutoCfg with height := 640 } : SessionConfig).height
          = ({ notebookAutoCfg with height := 640 } : SessionConfig).height) ∧
     (800 = 800 → ({ notebookAutoCfg with height := 640 } : SessionConfig).height = 800 →
        resolveHeight 800 ({ notebookAutoCfg with height := 640 } : SessionConfig).height
          = 800)) :=
  ⟨by decide,
    show_height_precedence { notebookAutoCfg with height := 640 } [] 800
      StateDescription.init (by decide)⟩

/-- C3 counterexample: constructing with remote=true in an IPYTHON context
does raise the configuration error, but only after the server-process
entry for the port was created and the session was added to the port's
subscriber set. -/
theorem remote_notebook_counterexample :
    (initSession Registry.empty notebookEnv remoteParams 0).2
        = Except.error InitError.remoteNotebook ∧
    5151 ∈ (initSession Registry.empty notebookEnv remoteParams 0).1.services ∧
    0 ∈ (initSession Registry.empty notebookEnv remoteParams 0).1.subscribers 5151 := by
  refine ⟨rfl, ?_, ?_⟩ <;> decide

/-- C3 amended: construction with remote=true in a notebook context fails
with the remote-in-notebook configuration error, but the acquisition is
not undone: the port holds a server-process entry and the session id is in
the port's subscriber set when the error is raised. -/
theorem remote_notebook_fails_after_acquire (r : Registry) (env : Env)
    (p : InitParams) (sid : Nat) (hrem : p.remote = true)
    (hctx : env.context ≠ Context.NONE) :
    (initSession r env p sid).2 = Except.error InitError.remoteNotebook ∧
    p.port ∈ (initSession r env p sid).1.services ∧
    sid ∈ (initSession r env p sid).1.subscribers p.port := by
  have hcond : p.remote = true ∧ env.context ≠ Context.NONE := ⟨hrem, hctx⟩
  refine ⟨?_, ?_, ?_⟩
  · simp only [initSession, if_pos hcond]
  · simp only [initSession, if_pos hcond, Registry.acquire]
    split
    · assumption
    · exact Finset.mem_insert_self _ _
  · simp only [initSession, if_pos hcond]
    rw [Registry.acquire_subscribers]
    simp

/-- Witness for C3's amended statement at the concrete remote-notebook
construction. -/
theorem remote_notebook_fails_after_acquire_witness :
    (remoteParams.remote = true ∧ notebookEnv.context ≠ Context.NONE) ∧
    ((initSession Registry.empty notebookEnv remoteParams 3).2
        = Except.error InitError.remoteNotebook ∧
      remoteParams.port ∈
        (initSession Registry.empty notebookEnv remoteParams 3).1.services ∧
      3 ∈ (initSession Registry.empty notebookEnv remoteParams 3).1.subscribers
            remoteParams.port) :=
  ⟨⟨rfl, by decide⟩,
    remote_notebook_fails_after_acquire Registry.empty notebookEnv remoteParams 3
      rfl (by decide)⟩

/-- C10: in a notebook context with remote=false, construction with the
desktop argument omitted (None) coerces desktopMode to false and succeeds;
the desktop-in-notebook error is raised exactly when desktop is explicitly
passed as true. -/
theorem notebook_desktop_default (r : Registry) (env : Env) (p : InitParams)
    (sid : Nat) (hctx : env.context ≠ Context.NONE) (hrem : p.remote = false) :
    (p.desktop = none →
      Except.map (fun srec => srec.cfg.desktop) (initSession r env p sid).2
        = Except.ok false) ∧
    ((initSession r env p sid).2 = Except.error InitError.desktopNotebook ↔
      p.desktop = some true) := by
  have hctx2 : ¬ env.context = Context.NONE := hctx
  cases hd : p.desktop with
  | none =>
    constructor
    · intro _
      simp [initSession, hrem, hctx2, hd, Except.map]
    · simp [initSession, hrem, hctx2, hd]
  | some b =>
    cases b with
    | false =>
      constructor
      · intro hcontra
        simp [hd] at hcontra
      · simp [initSession, hrem, hctx2, hd]
    | true =>
      constructor
      · intro hcontra
        simp [hd] at hcontra
      · simp [initSession, hrem, hctx2, hd]

/-- Witness for C10: constructing in a notebook with desktop omitted. -/
theorem notebook_desktop_default_witness :
    (notebookEnv.context ≠ Context.NONE ∧
      ({ remoteParams with remote := false } : InitParams).remote = false) ∧
    ((({ remoteParams with remote := false } : InitParams).desktop = none →
      Except.map (fun srec => srec.cfg.desktop)
        (initSession Registry.empty notebookEnv
            { remoteParams with remote := false } 0).2 = Except.ok false) ∧
    ((initSession Registry.empty notebookEnv
        { remoteParams with remote := false } 0).2
          = Except.error InitError.desktopNotebook ↔
      ({ remoteParams with remote := false } : InitParams).desktop = some true)) :=
  ⟨⟨by decide, rfl⟩,
    notebook_desktop_default Registry.empty notebookEnv
      { remoteParams with remote := false } 0 (by decide) rfl⟩

/-- C5 counterexample: launching a second session on port 7000 while the
first (the sole subscriber) is still active leaves the port's subscriber
set holding both sessions — cardinality 2, not 1 — because close_app
performs no release: its subscriber set is unchanged. -/
theorem relaunch_subscriber_counterexample :
    (closeApp launchedGlobals).registry.subscribers 7000 = {0} ∧
    0 ∈ (launchApp launchedGlobals 7000 1).registry.subscribers 7000 ∧
    1 ∈ (launchApp launchedGlobals 7000 1).registry.subscribers 7000 ∧
    ((launchApp launchedGlobals 7000 1).registry.subscribers 7000).card = 2 := by
  refine ⟨?_, ?_, ?_, ?_⟩ <;> decide

/-- C5 amended: when a session is constructed on a port while a
previously launched session on that port is still the active one,
close_app only pushes the close flag and drops the module _session
reference — the prior session's subscription is not released, since the
port's subscriber set itself keeps the session strongly referenced and
Session.__del__ does not run — so after the second construction the
subscriber set for that port holds both sessions: its count is 2, not 1. -/
theorem relaunch_leaks_subscriber (g : Globals) (sid p newSid : Nat)
    (hact : g.activeSession = some (sid, p))
    (hsub : g.registry.subscribers p = {sid})
    (hne : newSid ≠ sid) :
    (closeApp g).registry.subscribers p = {sid} ∧
    (launchApp g p newSid).registry.subscribers p = insert newSid {sid} ∧
    ((launchApp g p newSid).registry.subscribers p).card = 2 := by
  have hclose : (closeApp g).registry = g.registry := by
    simp [closeApp, hact]
  have hsubs : (launchApp g p newSid).registry.subscribers p
      = insert newSid {sid} := by
    simp [launchApp, Registry.acquire_subscribers, hclose, hsub]
  refine ⟨?_, hsubs, ?_⟩
  · rw [hclose, hsub]
  · rw [hsubs, Finset.card_insert_of_not_mem (by simp [hne]),
      Finset.card_singleton]

/-- Witness for C5's amended statement: a concrete relaunch on port
7000 with a second, distinct session. -/
theorem relaunch_leaks_subscriber_witness :
    (launchedGlobals.activeSession = some (0, 7000) ∧
      launchedGlobals.registry.subscribers 7000 = {0} ∧ (1 : Nat) ≠ 0) ∧
    ((closeApp launchedGlobals).registry.subscribers 7000 = {0} ∧
      (launchApp launchedGlobals 7000 1).registry.subscribers 7000
        = insert 1 {0} ∧
      ((launchApp launchedGlobals 7000 1).registry.subscribers 7000).card
        = 2) :=
  ⟨⟨rfl, by simp [launchedGlobals], by decide⟩,
    relaunch_leaks_subscriber launchedGlobals 0 7000 1 rfl
      (by simp [launchedGlobals]) (by decide)⟩

lemma sdiff_erase_cons (S : Finset Nat) (x : Nat) (xs : List Nat) :
    S.erase x \ xs.toFinset = S \ (x :: xs).toFinset := by
  ext a
  simp only [Finset.mem_sdiff, Finset.mem_erase, List.toFinset_cons,
    Finset.mem_insert]
  tauto

lemma acquireList_of_mem (port : Nat) (l : List Nat) :
    ∀ r : Registry, port ∈ r.services →
      (acquireList r port l).1.services = r.services ∧
      (acquireList r port l).1.subscribers port
          = r.subscribers port ∪ l.toFinset ∧
      (acquireList r port l).2 = 0 := by
  induction l with
  | nil =>
    intro r _
    simp [acquireList]
  | cons x xs ih =>
    intro r h
    have hserv : ((Registry.acquire r port x).1).services = r.services := by
      rw [Registry.acquire_services, if_pos h]
    have hstart : (Registry.acquire r port x).2 = false := by
      rw [Registry.acquire_started, if_pos h]
    have hsubs : ((Registry.acquire r port x).1).subscribers port
        = insert x (r.subscribers port) := by
      rw [Registry.acquire_subscribers, if_pos rfl]
    have hmem1 : port ∈ ((Registry.acquire r port x).1).services := by
      rw [hserv]; exact h
    obtain ⟨ih1, ih2, ih3⟩ := ih ((Registry.acquire r port x).1) hmem1
    refine ⟨?_, ?_, ?_⟩
    · simp only [acquireList]
      rw [ih1, hserv]
    · simp only [acquireList]
      rw [ih2, hsubs, List.toFinset_cons, Finset.insert_union,
        Finset.union_insert]
    · simp only [acquireList]
      rw [ih3, hstart]
      simp

lemma acquireList_fresh (port x : Nat) (xs : List Nat) (r : Registry)
    (hfresh : port ∉ r.services) :
    (acquireList r port (x :: xs)).2 = 1 ∧
    (acquireList r port (x :: xs)).1.services = insert port r.services ∧
    (acquireList r port (x :: xs)).1.subscribers port
        = r.subscribers port ∪ (x :: xs).toFinset := by
  have hserv : ((Registry.acquire r port x).1).services
      = insert port r.services := by
    rw [Registry.acquire_services, if_neg hfresh]
  have hstart : (Registry.acquire r port x).2 = true := by
    rw [Registry.acquire_started, if_neg hfresh]
  have hsubs : ((Registry.acquire r port x).1).subscribers port
      = insert x (r.subscribers port) := by
    rw [Registry.acquire_subscribers, if_pos rfl]
  have hmem1 : port ∈ ((Registry.acquire r port x).1).services := by
    rw [hserv]; exact Finset.mem_insert_self _ _
  obtain ⟨ih1, ih2, ih3⟩ := acquireList_of_mem port xs
    ((Registry.acquire r port x).1) hmem1
  refine ⟨?_, ?_, ?_⟩
  · simp only [acquireList]
    rw [ih3, hstart]
    simp
  · simp only [acquireList]
    rw [ih1, hserv]
  · simp only [acquireList]
    rw [ih2, hsubs, List.toFinset_cons, Finset.insert_union, Finset.union_insert]

lemma releaseList_inv (port : Nat) (l : List Nat) :
    ∀ r : Registry, (port ∈ r.services ↔ (r.subscribers port).Nonempty) →
      (releaseList r port l).1.subscribers port
          = r.subscribers port \ l.toFinset ∧
      (port ∈ (releaseList r port l).1.services ↔
        (r.subscribers port \ l.toFinset).Nonempty) ∧
      (releaseList r port l).2 =
        (if (r.subscribers port).Nonempty ∧ r.subscribers port \ l.toFinset = ∅
          then 1 else 0) := by
  induction l with
  | nil =>
    intro r hinv
    refine ⟨by simp [releaseList], ?_, ?_⟩
    · simpa [releaseList] using hinv
    · have hfalse : ¬((r.subscribers port).Nonempty ∧
          r.subscribers port \ ([] : List Nat).toFinset = ∅) := by
        rintro ⟨hne, hemp⟩
        rw [List.toFinset_nil, Finset.sdiff_empty] at hemp
        rw [hemp] at hne
        exact Finset.not_nonempty_empty hne
      rw [if_neg hfalse]
      simp [releaseList]
  | cons x xs ih =>
    intro r hinv
    have hsubs1 : ((Registry.release r port x).1).subscribers port
        = (r.subscribers port).erase x := by
      rw [Registry.release_subscribers, if_pos rfl]
    by_cases hne : ((r.subscribers port).erase x).Nonempty
    · have hScond : ¬(((r.subscribers port).erase x).card = 0 ∧
          port ∈ r.services) := by
        rintro ⟨hemp, _⟩
        rw [Finset.card_eq_zero] at hemp
        rw [hemp] at hne
        exact Finset.not_nonempty_empty hne
      have hserv1 : ((Registry.release r port x).1).services = r.services := by
        unfold Registry.release
        rw [if_neg hScond]
      have hstop1 : (Registry.release r port x).2 = false := by
        unfold Registry.release
        rw [if_neg hScond]
      have hSne : (r.subscribers port).Nonempty :=
        hne.mono (Finset.erase_subset _ _)
      have hinv1 : port ∈ ((Registry.release r port x).1).services ↔
          (((Registry.release r port x).1).subscribers port).Nonempty := by
        rw [hserv1, hsubs1]
        exact iff_of_true (hinv.mpr hSne) hne
      obtain ⟨ih1, ih2, ih3⟩ := ih ((Registry.release r port x).1) hinv1
      refine ⟨?_, ?_, ?_⟩
      · simp only [releaseList]
        rw [ih1, hsubs1, sdiff_erase_cons]
      · simp only [releaseList]
        rw [ih2, hsubs1, sdiff_erase_cons]
      · simp only [releaseList]
        rw [ih3, hstop1, hsubs1, sdiff_erase_cons]
        simp only [Bool.false_eq_true, if_false, zero_add]
        by_cases hrest : r.subscribers port \ (x :: xs).toFinset = ∅
        · have h1 : ((r.subscribers port).erase x).Nonempty ∧
              r.subscribers port \ (x :: xs).toFinset = ∅ := ⟨hne, hrest⟩
          have h2 : (r.subscribers port).Nonempty ∧
              r.subscribers port \ (x :: xs).toFinset = ∅ := ⟨hSne, hrest⟩
          rw [if_pos h1, if_pos h2]
        · have h1 : ¬(((r.subscribers port).erase x).Nonempty ∧
              r.subscribers port \ (x :: xs).toFinset = ∅) := by
            rintro ⟨_, hc⟩
            exact hrest hc
          have h2 : ¬((r.subscribers port).Nonempty ∧
              r.subscribers port \ (x :: xs).toFinset = ∅) := by
            rintro ⟨_, hc⟩
            exact hrest hc
          rw [if_neg h1, if_neg h2]
    · have hemp : (r.subscribers port).erase x = ∅ :=
        Finset.not_nonempty_iff_eq_empty.mp hne
      by_cases hmem : port ∈ r.services
      · have hScond : ((r.subscribers port).erase x).card = 0 ∧
            port ∈ r.services := ⟨by rw [Finset.card_eq_zero]; exact hemp, hmem⟩
        have hserv1 : ((Registry.release r port x).1).services
            = r.services.erase port := by
          unfold Registry.release
          rw [if_pos hScond]
        have hstop1 : (Registry.release r port x).2 = true := by
          unfold Registry.release
          rw [if_pos hScond]
        have hinv1 : port ∈ ((Registry.release r port x).1).services ↔
            (((Registry.release r port x).1).subscribers port).Nonempty := by
          rw [hserv1, hsubs1, hemp]
          exact iff_of_false (Finset.not_mem_erase _ _)
            Finset.not_nonempty_empty
        obtain ⟨ih1, ih2, ih3⟩ := ih ((Registry.release r port x).1) hinv1
        have hrest : r.subscribers port \ (x :: xs).toFinset = ∅ := by
          rw [← sdiff_erase_cons, hemp, Finset.empty_sdiff]
        refine ⟨?_, ?_, ?_⟩
        · simp only [releaseList]
          rw [ih1, hsubs1, hemp, Finset.empty_sdiff, hrest]
        · simp only [releaseList]
          rw [ih2, hsubs1, hemp, Finset.empty_sdiff, hrest]
        · simp only [releaseList]
          rw [ih3, hstop1, hsubs1, hemp]
          have hc2 : ¬((∅ : Finset Nat).Nonempty ∧
              (∅ : Finset Nat) \ xs.toFinset = ∅) := by
            rintro ⟨hc, _⟩
            exact Finset.not_nonempty_empty hc
          have h2 : (r.subscribers port).Nonempty ∧
              r.subscribers port \ (x :: xs).toFinset = ∅ := ⟨hinv.mp hmem, hrest⟩
          rw [if_neg hc2, if_pos h2]
          simp
      · have hSemp : r.subscribers port = ∅ :=
          Finset.not_nonempty_iff_eq_empty.mp (fun h => hmem (hinv.mpr h))
        have hScond : ¬(((r.subscribers port).erase x).card = 0 ∧
            port ∈ r.services) := by
          rintro ⟨_, hc⟩
          exact hmem hc
        have hserv1 : ((Registry.release r port x).1).services = r.services := by
          unfold Registry.release
          rw [if_neg hScond]
        have hstop1 : (Registry.release r port x).2 = false := by
          unfold Registry.release
          rw [if_neg hScond]
        have hinv1 : port ∈ ((Registry.release r port x).1).services ↔
            (((Registry.release r port x).1).subscribers port).Nonempty := by
          rw [hserv1, hsubs1, hemp]
          exact iff_of_false hmem Finset.not_nonempty_empty
        obtain ⟨ih1, ih2, ih3⟩ := ih ((Registry.release r port x).1) hinv1
        have hrest : r.subscribers port \ (x :: xs).toFinset = ∅ := by
          rw [← sdiff_erase_cons, hemp, Finset.empty_sdiff]
        refine ⟨?_, ?_, ?_⟩
        · simp only [releaseList]
          rw [ih1, hsubs1, hemp, Finset.empty_sdiff, hrest]
        · simp only [releaseList]
          rw [ih2, hsubs1, hemp, Finset.empty_sdiff, hrest]
        · simp only [releaseList]
          rw [ih3, hstop1, hsubs1, hemp]
          have hc2 : ¬((∅ : Finset Nat).Nonempty ∧
              (∅ : Finset Nat) \ xs.toFinset = ∅) := by
            rintro ⟨hc, _⟩
            exact Finset.not_nonempty_empty hc
          have hc3 : ¬((r.subscribers port).Nonempty ∧
              r.subscribers port \ (x :: xs).toFinset = ∅) := by
            rintro ⟨hc, _⟩
            rw [hSemp] at hc
            exact Finset.not_nonempty_empty hc
          rw [if_neg hc2, if_neg hc3]
          simp

lemma toFinset_sdiff_erase_self (l : List Nat) (x : Nat) (hnd : l.Nodup)
    (hx : x ∈ l) : l.toFinset \ (l.erase x).toFinset = {x} := by
  ext a
  simp only [Finset.mem_sdiff, List.mem_toFinset, hnd.mem_erase_iff,
    Finset.mem_singleton]
  constructor
  · rintro ⟨hal, hn⟩
    by_contra hax
    exact hn ⟨hax, hal⟩
  · rintro rfl
    exact ⟨hx, fun hc => hc.1 rfl⟩

/-- C6: acquiring a fresh port for a list of distinct session subscribers
starts exactly one server process and leaves the entry present with all of
them subscribed; releasing all subscribers except one stops nothing and
leaves the entry present; releasing the last remaining subscriber removes
the entry and stops the process. -/
theorem registry_refcount (r : Registry) (port : Nat) (l : List Nat) (x : Nat)
    (hfresh : port ∉ r.services) (hempty : r.subscribers port = ∅)
    (hnd : l.Nodup) (hx : x ∈ l) :
    (acquireList r port l).2 = 1 ∧
    port ∈ (acquireList r port l).1.services ∧
    (acquireList r port l).1.subscribers port = l.toFinset ∧
    port ∈ (releaseList (acquireList r port l).1 port (l.erase x)).1.services ∧
    (releaseList (acquireList r port l).1 port (l.erase x)).2 = 0 ∧
    port ∉ (Registry.release
        (releaseList (acquireList r port l).1 port (l.erase x)).1 port
        x).1.services ∧
    (Registry.release
        (releaseList (acquireList r port l).1 port (l.erase x)).1 port
        x).2 = true := by
  cases l with
  | nil => cases hx
  | cons y ys =>
    obtain ⟨hcount, hserv, hsubs⟩ := acquireList_fresh port y ys r hfresh
    rw [hempty, Finset.empty_union] at hsubs
    have hmem : port ∈ (acquireList r port (y :: ys)).1.services := by
      rw [hserv]
      exact Finset.mem_insert_self _ _
    have hsingle : (y :: ys).toFinset \ ((y :: ys).erase x).toFinset = {x} :=
      toFinset_sdiff_erase_self (y :: ys) x hnd hx
    have hinvA : port ∈ (acquireList r port (y :: ys)).1.services ↔
        ((acquireList r port (y :: ys)).1.subscribers port).Nonempty := by
      rw [hsubs]
      exact iff_of_true hmem ⟨x, List.mem_toFinset.mpr hx⟩
    obtain ⟨rel1, rel2, rel3⟩ := releaseList_inv port ((y :: ys).erase x)
      (acquireList r port (y :: ys)).1 hinvA
    rw [hsubs, hsingle] at rel1
    rw [hsubs, hsingle] at rel2
    have hrelmem : port ∈
        (releaseList (acquireList r port (y :: ys)).1 port
          ((y :: ys).erase x)).1.services :=
      rel2.mpr ⟨x, Finset.mem_singleton_self x⟩
    have hstops : (releaseList (acquireList r port (y :: ys)).1 port
        ((y :: ys).erase x)).2 = 0 := by
      rw [rel3, hsubs, hsingle]
      refine if_neg ?_
      rintro ⟨_, hc⟩
      exact Finset.singleton_ne_empty x hc
    have hcond : (((releaseList (acquireList r port (y :: ys)).1 port
          ((y :: ys).erase x)).1.subscribers port).erase x).card = 0 ∧
        port ∈ (releaseList (acquireList r port (y :: ys)).1 port
          ((y :: ys).erase x)).1.services := by
      constructor
      · rw [rel1, Finset.erase_singleton, Finset.card_empty]
      · exact hrelmem
    refine ⟨hcount, hmem, hsubs, hrelmem, hstops, ?_, ?_⟩
    · unfold Registry.release
      rw [if_pos hcond]
      exact Finset.not_mem_erase _ _
    · unfold Registry.release
      rw [if_pos hcond]

/-- Witness for C6: three distinct subscribers on the fresh port 5151,
releasing the first two and then the third. -/
theorem registry_refcount_witness :
    (5151 ∉ Registry.empty.services ∧ ([1, 2, 3] : List Nat).Nodup ∧
      3 ∈ ([1, 2, 3] : List Nat)) ∧
    ((acquireList Registry.empty 5151 [1, 2, 3]).2 = 1 ∧
      5151 ∈ (acquireList Registry.empty 5151 [1, 2, 3]).1.services ∧
      (acquireList Registry.empty 5151 [1, 2, 3]).1.subscribers 5151
        = ([1, 2, 3] : List Nat).toFinset ∧
      5151 ∈ (releaseList (acquireList Registry.empty 5151 [1, 2, 3]).1 5151
        (([1, 2, 3] : List Nat).erase 3)).1.services ∧
      (releaseList (acquireList Registry.empty 5151 [1, 2, 3]).1 5151
        (([1, 2, 3] : List Nat).erase 3)).2 = 0 ∧
      5151 ∉ (Registry.release
          (releaseList (acquireList Registry.empty 5151 [1, 2, 3]).1 5151
            (([1, 2, 3] : List Nat).erase 3)).1 5151 3).1.services ∧
      (Registry.release
          (releaseList (acquireList Registry.empty 5151 [1, 2, 3]).1 5151
            (([1, 2, 3] : List Nat).erase 3)).1 5151 3).2 = true) :=
  ⟨⟨by decide, by decide, by decide⟩,
    registry_refcount Registry.empty 5151 [1, 2, 3] 3 (by decide) rfl
      (by decide) (by decide)⟩

end FiftyOneSession
